import Mathlib

/-!
Verification development for the peer-calls signaling core.

Part 1 models the in-memory room adapter (`MemoryAdapter`), its clients and
messages.  The repository snapshot under verification ships only the test
file `server/memoryadapter_test.go` for this component; the implementation
(`server/memoryadapter.go`, `server/client.go`, the `message` package) is
absent, so these definitions are modelled from the specification's
description of that component, as marked on each definition.

Part 2 embeds `server/command/command.go` (present in the snapshot): the
nested command dispatcher and its `Exec` control flow.
-/

/- ===================== Part 1: room adapter model ===================== -/

/-- Modelled from the spec: the type-specific payload of a `Message`
(§3, §6).  The spec requires at minimum a "room-join" announcement payload
`(ClientID, Metadata)` and an application "ready" event payload
(`Ready{Nickname}` in the tests).  `message.RoomJoin` / `message.Ready` are
absent from the snapshot. -/
inductive MsgPayload where
  | roomJoin (clientID : String) (metadata : String)
  | ready (nickname : String)
deriving DecidableEq, Repr

/-- Modelled from the spec: a `Message` is an immutable value with a room
identifier, a type discriminator string and a type-specific payload (§3).
The `message` package is absent from the snapshot. -/
structure Msg where
  room : String
  ty : String
  payload : MsgPayload
deriving DecidableEq, Repr

/-- Modelled from the spec: the `message.NewRoomJoin` factory — constructs
a "room-join" message for a room announcing a client and its metadata
(§4.1, §6). -/
def newRoomJoin (room clientID metadata : String) : Msg :=
  ⟨room, "room-join", MsgPayload.roomJoin clientID metadata⟩

/-- Modelled from the spec: the `message.NewReady` factory — constructs a
"ready" event message for a room (§4.1). -/
def newReady (room nickname : String) : Msg :=
  ⟨room, "ready", MsgPayload.ready nickname⟩

/-- Modelled from the spec: canonical serialization of a payload as part of
the self-describing wire form (§6).  The concrete encoder is absent from
the snapshot; the model uses a fixed, purely structural encoding. -/
def serializePayload : MsgPayload → String
  | MsgPayload.roomJoin c m => "clientId=" ++ c ++ ";metadata=" ++ m
  | MsgPayload.ready n => "nickname=" ++ n

/-- Modelled from the spec: canonical wire form of a message — a
self-describing document carrying the room identifier, the type
discriminator and the payload (§6).  Serialization is a pure function of
the message's fields, identical on every delivery path. -/
def serialize (m : Msg) : String :=
  "room=" ++ m.room ++ "|type=" ++ m.ty ++ "|" ++ serializePayload m.payload

/-- Modelled from the spec: a client's terminal error (§4.2, §7): either a
cancellation cause (`context.Canceled` for a plain cancel) or an opaque
transport (writer) failure. -/
inductive ClientErr where
  | canceled
  | writerError (e : String)
deriving DecidableEq, Repr

/-- Modelled from the spec: one subscription session (§3): it accumulates
the messages delivered to it, and `closed` records that its cancellation
token fired, after which it produces no further messages. -/
structure SubState where
  received : List Msg
  closed : Bool
deriving DecidableEq, Repr

/-- Modelled from the spec: a `Client` (§3, §4.2): identity, mutable
metadata, the writer's output transcript (`written`, the serialized
messages in delivery order), the live subscription sessions, and the
terminal error slot (set at most once). -/
structure ClientState where
  id : String
  metadata : String
  written : List String
  subs : List SubState
  terminalErr : Option ClientErr
deriving DecidableEq, Repr

/-- Modelled from the spec: `server.NewClient` — a fresh client with empty
metadata, an empty writer transcript, no subscriptions and no terminal
error. -/
def newClient (id : String) : ClientState :=
  ⟨id, "", [], [], none⟩

/-- Modelled from the spec: `Client.SetMetadata` — last-write-wins setter
(§4.2). -/
def setMetadata (c : ClientState) (m : String) : ClientState :=
  { c with metadata := m }

/-- Modelled from the spec: `Client.Err` — returns the terminal error, or
none if the client has not failed or been cancelled (§4.2). -/
def clientErr (c : ClientState) : Option ClientErr :=
  c.terminalErr

/-- Modelled from the spec: `Client.Write` — serializes the message to the
writer and delivers the message to every currently-live subscription
session, in that order (§4.2).  The successful-writer path is modelled;
claims under verification do not exercise writer failure. -/
def clientWrite (m : Msg) (c : ClientState) : ClientState :=
  { c with
    written := c.written ++ [serialize m],
    subs := c.subs.map fun s =>
      if s.closed then s else { s with received := s.received ++ [m] } }

/-- Modelled from the spec: `Client.Subscribe` — registers a new, open
subscription session (appended at the end of the session list) bound to a
fresh cancellation token (§4.2). -/
def subscribe (c : ClientState) : ClientState :=
  { c with subs := c.subs ++ [⟨[], false⟩] }

/-- Modelled from the spec: the effect of a subscription session's
cancellation token firing with cause `cause` (§4.2): the session at index
`i` stops producing messages (closes), and — unless a terminal error is
already recorded — the cause is recorded as the client's terminal error. -/
def cancelSubAt (c : ClientState) (i : Nat) (cause : ClientErr) : ClientState :=
  { c with
    subs := c.subs.set i { (c.subs.getD i ⟨[], true⟩) with closed := true },
    terminalErr := some (c.terminalErr.getD cause) }

/-- Modelled from the spec: the adapter-level error kinds (§7).  Only the
duplicate-Add error is surfaced by the reference behavior. -/
inductive AdapterErr where
  | clientAlreadyExists
deriving DecidableEq, Repr

/-- Modelled from the spec: `server.MemoryAdapter` — owns the membership
of exactly one room; the client list reflects exactly the clients Added
and not yet Removed, in insertion order (§3, §4.3). -/
structure MemoryAdapter where
  room : String
  clients : List ClientState
deriving DecidableEq, Repr

/-- Modelled from the spec: `server.NewMemoryAdapter` — a fresh adapter
for one room with no members. -/
def newMemoryAdapter (room : String) : MemoryAdapter :=
  ⟨room, []⟩

/-- Modelled from the spec: membership test on the adapter's mapping. -/
def isMember (a : MemoryAdapter) (id : String) : Bool :=
  a.clients.any fun c => c.id == id

/-- Modelled from the spec: `MemoryAdapter.Broadcast` — calls `Write(msg)`
on every client currently registered in the room (§4.3). -/
def broadcast (a : MemoryAdapter) (m : Msg) : MemoryAdapter :=
  { a with clients := a.clients.map (clientWrite m) }

/-- Modelled from the spec: `MemoryAdapter.Add` — fails with
`ErrClientAlreadyExists` (room unchanged) if the ID is present; otherwise
registers the client and immediately publishes the "room-join"
announcement (ClientID + current metadata of the new client) to the
post-insertion membership, the new client included (§4.3). -/
def add (a : MemoryAdapter) (c : ClientState) : Option AdapterErr × MemoryAdapter :=
  if isMember a c.id then
    (some AdapterErr.clientAlreadyExists, a)
  else
    (none, broadcast { a with clients := a.clients ++ [c] }
      (newRoomJoin a.room c.id c.metadata))

/-- Modelled from the spec: `MemoryAdapter.Remove` — deregisters the
client with this ID if present; no announcement is sent; no error is
surfaced by the reference behavior (§4.3). -/
def remove (a : MemoryAdapter) (id : String) : Option AdapterErr × MemoryAdapter :=
  (none, { a with clients := a.clients.filter fun c => c.id != id })

/-- Modelled from the spec: `MemoryAdapter.Clients` — snapshot of the
membership mapping ClientID → Metadata, with a nil error (§4.3). -/
def clientsMap (a : MemoryAdapter) : Option AdapterErr × List (String × String) :=
  (none, a.clients.map fun c => (c.id, c.metadata))

/-- Modelled from the spec: `MemoryAdapter.Size` — cardinality of the
membership, with a nil error (§4.3). -/
def size (a : MemoryAdapter) : Option AdapterErr × Nat :=
  (none, a.clients.length)

/-- Modelled from the spec: `MemoryAdapter.Emit` — if the ID is currently
a member, calls that client's `Write(msg)`; otherwise a silent no-op with
no error surfaced (§4.3). -/
def emit (a : MemoryAdapter) (id : String) (m : Msg) : MemoryAdapter :=
  { a with clients := a.clients.map fun c =>
      if c.id == id then clientWrite m c else c }

/-- The writer transcript of the member with the given ID (empty if the ID
is not a member): the serialized messages its writer received, in order. -/
def writtenOf (a : MemoryAdapter) (id : String) : List String :=
  ((a.clients.find? fun c => c.id == id).map ClientState.written).getD []

/- ===================== Part 2: command dispatcher ===================== -/

/-- The possible non-nil results of `Command.Exec`
(`server/command/command.go`): the annotated flag-parse error, a traced
`Handler` error, and the annotated `ErrCommandNotFound`.  Flag-parse and
handler errors are opaque strings, as the parser and handler are external
collaborators. -/
inductive ExecErr where
  | parseError (cmdName : String) (e : String)
  | handlerError (e : String)
  | commandNotFound (sub : String)
deriving DecidableEq, Repr

/-- Observable side effects of one `Command.Exec` call, in order: the
`Handler.Handle` invocation (with the leftover args it received) and the
dispatch of a subcommand by the named parent. -/
inductive ExecEvent where
  | handlerCalled (cmdName : String) (args : List String)
  | dispatched (parent child : String)
deriving DecidableEq, Repr

/-- `command.Command` / `command.Params`: name, optional args
pre/post-processors, the flag-parsing step (the registered `pflag` flag
set applied to the argument list, an external collaborator, abstracted as
a function), the optional handler, and the subcommand list. -/
inductive Command where
  | mk (name : String)
       (preProc : Option (List String → List String))
       (postProc : Option (List String → List String))
       (parseFlags : List String → Except String (List String))
       (handler : Option (List String → Except String Unit))
       (subs : List Command)

/-- `Command.Name`. -/
def Command.name : Command → String
  | Command.mk n _ _ _ _ _ => n

/-- Application of an optional `ArgsProcessor` (`nil` check in `Exec`). -/
def applyProc : Option (List String → List String) → List String → List String
  | none, args => args
  | some f, args => f args

/-- `command.go:150-152`: strip one leading `"--"` element from the
leftover arguments. -/
def stripDashDash (args : List String) : List String :=
  if args.head? == some "--" then args.tail else args

/-- The handler step of `Exec` (`command.go:139-144`): when a handler is
set it is invoked on the post-parse arguments; its error, if any, is
surfaced.  Returns the error (if any) and the invocation event. -/
def runHandler (name : String) (handler : Option (List String → Except String Unit))
    (parsed : List String) : Option String × List ExecEvent :=
  match handler with
  | none => (none, [])
  | some h =>
    match h parsed with
    | Except.ok _ => (none, [ExecEvent.handlerCalled name parsed])
    | Except.error e => (some e, [ExecEvent.handlerCalled name parsed])

/-- Subcommand lookup (`command.go:72-87,156`): `New` builds a map from
each subcommand's name, later entries overwriting earlier ones, so lookup
finds the last subcommand carrying the name.  The result carries its list
membership. -/
def findSub (subs : List Command) (n : String) : Option {c // c ∈ subs} :=
  subs.attach.reverse.find? fun s => s.val.name == n

/-- `Command.Exec` (`command.go:93-168`), sequential control flow:
pre-process args, parse flags (annotated error on failure), run the
handler (traced error on failure), post-process, strip one leading
`"--"`, and when leftover args and subcommands are both non-empty,
dispatch to the named subcommand or fail with the annotated
`ErrCommandNotFound`.  Alongside the result it returns the event trace. -/
def exec : Command → List String → Except ExecErr Unit × List ExecEvent
  | Command.mk name preP postP parseF handler subs, args =>
    match parseF (applyProc preP args) with
    | Except.error e => (Except.error (ExecErr.parseError name e), [])
    | Except.ok parsed =>
      match runHandler name handler parsed with
      | (some e, evts) => (Except.error (ExecErr.handlerError e), evts)
      | (none, evts) =>
        match stripDashDash (applyProc postP parsed), subs with
        | [], _ => (Except.ok (), evts)
        | _ :: _, [] => (Except.ok (), evts)
        | n :: rest, s :: ss =>
          match findSub (s :: ss) n with
          | none => (Except.error (ExecErr.commandNotFound n), evts)
          | some sub =>
            ((exec sub.val rest).1,
             evts ++ ExecEvent.dispatched name n :: (exec sub.val rest).2)
termination_by c _ => sizeOf c
decreasing_by
  all_goals
    have h1 := List.sizeOf_lt_of_mem sub.property
    simp only [List.cons.sizeOf_spec] at h1 ⊢
    simp_wf
    omega

/- ============== Auxiliary definitions used by the theorems ============== -/

/-- The two-client scenario (§8 property 8 / `TestMemoryAdapter_Broadcast`):
clients A and B are added in order, then a Ready message is broadcast. -/
def twoClientBroadcastState (room idA idB mA mB nick : String) : MemoryAdapter :=
  broadcast
    (add (add (newMemoryAdapter room) (setMetadata (newClient idA) mA)).2
      (setMetadata (newClient idB) mB)).2
    (newReady room nick)

/-- The single-client scenario (§8 property 2 / `TestMemoryAdapter_emitFound`):
one client is added to an empty room, then a message is emitted to it. -/
def selfEmitState (room id md : String) (msg : Msg) : MemoryAdapter :=
  emit (add (newMemoryAdapter room) (setMetadata (newClient id) md)).2 id msg

/-- A client carrying a previously recorded terminal (writer) error. -/
def failedClient : ClientState :=
  { newClient "x" with terminalErr := some (ClientErr.writerError "boom") }

/-- A one-member adapter, used to instantiate membership hypotheses. -/
def oneMemberAdapter : MemoryAdapter :=
  ⟨"r", [newClient "x"]⟩

/-- The result of `Exec` is an error wrapping `ErrCommandNotFound`
(`errors.Annotatef` / `errors.Trace` preserve the wrapped cause). -/
def wrapsCommandNotFound : Except ExecErr Unit → Bool
  | Except.error (ExecErr.commandNotFound _) => true
  | _ => false

/-- Success of the optional handler step on the given parsed arguments. -/
def handlerOk (handler : Option (List String → Except String Unit))
    (parsed : List String) : Prop :=
  ∀ h, handler = some h → h parsed = Except.ok ()

/-- Stated from the claim's words (for comparison with `exec`): after flag
parsing, post-processing and stripping one leading `"--"`, the leftover
list is non-empty, the command has at least one subcommand, and the first
leftover argument matches no subcommand name. -/
def claimNotFoundCond : Command → List String → Bool
  | Command.mk _ preP postP parseF _ subs, args =>
    match parseF (applyProc preP args) with
    | Except.error _ => false
    | Except.ok parsed =>
      match stripDashDash (applyProc postP parsed), subs with
      | n :: _, _ :: _ => (findSub subs n).isNone
      | _, _ => false

/-- A flag-parse step with no registered flags consuming arguments. -/
def okParse : List String → Except String (List String) :=
  fun args => Except.ok args

/-- Concrete nested command tree: root → mid → leaf. -/
def cmdLeaf : Command := Command.mk "leaf" none none okParse none []

/-- See `cmdLeaf`. -/
def cmdMid : Command := Command.mk "mid" none none okParse none [cmdLeaf]

/-- See `cmdLeaf`. -/
def cmdRoot : Command := Command.mk "root" none none okParse none [cmdMid]

/-- A flag-parse step that always fails. -/
def badParse : List String → Except String (List String) :=
  fun _ => Except.error "bad"

/-- A handler that always fails. -/
def failHandler : List String → Except String Unit :=
  fun _ => Except.error "hfail"

/- ===================== Theorems: room adapter ===================== -/

/-- Helper: mapping the emit update over a list of clients, none of which
matches the target ID, is the identity. -/
theorem emit_map_eq_self {id : String} {m : Msg} {l : List ClientState}
    (h : ∀ c ∈ l, (c.id == id) = false) :
    (l.map fun c => if c.id == id then clientWrite m c else c) = l := by
  induction l with
  | nil => rfl
  | cons x xs ih =>
    have hx := h x (by simp)
    rw [List.map_cons, if_neg (by simp [hx]), ih fun c hc => h c (by simp [hc])]

/-- Helper: `List.getD` at an index just set by `List.set`. -/
theorem list_getD_set_eq {α : Type} (l : List α) (i : Nat) (a d : α)
    (h : i < l.length) : (l.set i a).getD i d = a := by
  induction l generalizing i with
  | nil => simp at h
  | cons x xs ih =>
    cases i with
    | zero => rfl
    | succ n =>
      have hn : n < xs.length := by simpa using h
      simpa [List.set, List.getD] using ih n hn

/-- C2: for a fresh adapter, adding one client whose metadata was set to
"a" yields `Add = nil`, `Clients() = {id: "a"}` (nil error) and
`Size() = 1` (nil error); after `Remove` of that ID, `Remove = nil`,
`Clients() = {}` (nil error) and `Size() = 0` (nil error). -/
theorem add_remove_single_client (room id : String) :
    (add (newMemoryAdapter room) (setMetadata (newClient id) "a")).1 = none ∧
    clientsMap (add (newMemoryAdapter room) (setMetadata (newClient id) "a")).2 =
      (none, [(id, "a")]) ∧
    size (add (newMemoryAdapter room) (setMetadata (newClient id) "a")).2 = (none, 1) ∧
    (remove (add (newMemoryAdapter room) (setMetadata (newClient id) "a")).2 id).1 = none ∧
    clientsMap (remove (add (newMemoryAdapter room) (setMetadata (newClient id) "a")).2 id).2 =
      (none, []) ∧
    size (remove (add (newMemoryAdapter room) (setMetadata (newClient id) "a")).2 id).2 =
      (none, 0) := by
  simp [add, newMemoryAdapter, setMetadata, newClient, isMember, broadcast, clientWrite,
    clientsMap, size, remove]

/-- C3: `Emit` with an ID that is not a current member has no observable
effect: the adapter state (hence every writer transcript, every
subscription, and the membership mapping) is unchanged, and no error is
surfaced (the operation has no error result). -/
theorem emit_nonmember_noop (a : MemoryAdapter) (id : String) (m : Msg)
    (h : isMember a id = false) :
    emit a id m = a ∧
    clientsMap (emit a id m) = clientsMap a ∧
    size (emit a id m) = size a := by
  have h' : ∀ c ∈ a.clients, (c.id == id) = false := by
    simpa [isMember, List.any_eq_false] using h
  have heq : emit a id m = a := by
    cases a with
    | mk room clients =>
      show MemoryAdapter.mk room
          (clients.map fun c => if c.id == id then clientWrite m c else c) =
        MemoryAdapter.mk room clients
      rw [emit_map_eq_self h']
  exact ⟨heq, by rw [heq], by rw [heq]⟩

/-- C3 witness at a concrete non-member ID. -/
theorem emit_nonmember_noop_witness :
    isMember oneMemberAdapter "y" = false ∧
    (emit oneMemberAdapter "y" (newReady "r" "test") = oneMemberAdapter ∧
     clientsMap (emit oneMemberAdapter "y" (newReady "r" "test")) = clientsMap oneMemberAdapter ∧
     size (emit oneMemberAdapter "y" (newReady "r" "test")) = size oneMemberAdapter) :=
  ⟨by decide, emit_nonmember_noop oneMemberAdapter "y" (newReady "r" "test") (by decide)⟩

/-- C4: in the single-client scenario (Add to an empty room, then Emit to
that client), the client's writer transcript is exactly the serialized
room-join announcement naming its ID and current metadata, followed by
the serialization of the emitted message. -/
theorem self_join_precedes_emit (room id md : String) (msg : Msg) :
    writtenOf (selfEmitState room id md msg) id =
      [serialize (newRoomJoin room id md), serialize msg] := by
  simp [selfEmitState, emit, add, newMemoryAdapter, setMetadata, newClient, isMember,
    broadcast, clientWrite, writtenOf]

/-- C6: `Add` with a client whose ID is already a member returns
`ErrClientAlreadyExists` and leaves the room state — hence `Clients()`
and `Size()` — unchanged. -/
theorem add_duplicate_unchanged (a : MemoryAdapter) (c : ClientState)
    (h : isMember a c.id = true) :
    (add a c).1 = some AdapterErr.clientAlreadyExists ∧
    (add a c).2 = a ∧
    clientsMap (add a c).2 = clientsMap a ∧
    size (add a c).2 = size a := by
  simp [add, h]

/-- C6 witness: duplicate Add of ID "x" into a room containing "x". -/
theorem add_duplicate_unchanged_witness :
    isMember oneMemberAdapter (newClient "x").id = true ∧
    ((add oneMemberAdapter (newClient "x")).1 = some AdapterErr.clientAlreadyExists ∧
     (add oneMemberAdapter (newClient "x")).2 = oneMemberAdapter ∧
     clientsMap (add oneMemberAdapter (newClient "x")).2 = clientsMap oneMemberAdapter ∧
     size (add oneMemberAdapter (newClient "x")).2 = size oneMemberAdapter) :=
  ⟨by decide, add_duplicate_unchanged oneMemberAdapter (newClient "x") (by decide)⟩

/-- C7: serialization is a function of the message's logical content:
two messages with the same room, type and payload serialize to identical
bytes, regardless of how each message was constructed. -/
theorem serialize_deterministic (m1 m2 : Msg) (h1 : m1.room = m2.room)
    (h2 : m1.ty = m2.ty) (h3 : m1.payload = m2.payload) :
    serialize m1 = serialize m2 := by
  cases m1
  cases m2
  simp_all [serialize]

/-- C7 witness: a factory-built room-join message and an independently
constructed literal with the same fields serialize identically. -/
theorem serialize_deterministic_witness :
    (newRoomJoin "r" "c" "m").room = (Msg.mk "r" "room-join" (MsgPayload.roomJoin "c" "m")).room ∧
    (newRoomJoin "r" "c" "m").ty = (Msg.mk "r" "room-join" (MsgPayload.roomJoin "c" "m")).ty ∧
    (newRoomJoin "r" "c" "m").payload =
      (Msg.mk "r" "room-join" (MsgPayload.roomJoin "c" "m")).payload ∧
    serialize (newRoomJoin "r" "c" "m") =
      serialize (Msg.mk "r" "room-join" (MsgPayload.roomJoin "c" "m")) :=
  ⟨rfl, rfl, rfl, serialize_deterministic _ _ rfl rfl rfl⟩

/-- C1: in the two-client scenario (A added, then B added, then a Ready
message broadcast), A's writer receives, in order, the serialized join
announcements for A and for B followed by the serialized Ready message,
and B's writer receives the serialized join announcement for B followed
by the serialized Ready message: each Add publishes the join announcement
to the post-insertion membership, the new client included. -/
theorem broadcast_two_clients (room idA idB mA mB nick : String) (h : idA ≠ idB) :
    writtenOf (twoClientBroadcastState room idA idB mA mB nick) idA =
      [serialize (newRoomJoin room idA mA), serialize (newRoomJoin room idB mB),
        serialize (newReady room nick)] ∧
    writtenOf (twoClientBroadcastState room idA idB mA mB nick) idB =
      [serialize (newRoomJoin room idB mB), serialize (newReady room nick)] := by
  have h1 : (idA == idB) = false := by simp [h]
  have h2 : (idB == idA) = false := by simp [Ne.symm h]
  simp [twoClientBroadcastState, add, newMemoryAdapter, setMetadata, newClient, isMember,
    broadcast, clientWrite, writtenOf, h1, h2]

/-- C1 witness at concrete distinct client IDs. -/
theorem broadcast_two_clients_witness :
    ("a" : String) ≠ "b" ∧
    (writtenOf (twoClientBroadcastState "r" "a" "b" "ma" "mb" "test") "a" =
      [serialize (newRoomJoin "r" "a" "ma"), serialize (newRoomJoin "r" "b" "mb"),
        serialize (newReady "r" "test")] ∧
     writtenOf (twoClientBroadcastState "r" "a" "b" "ma" "mb" "test") "b" =
      [serialize (newRoomJoin "r" "b" "mb"), serialize (newReady "r" "test")]) :=
  ⟨by decide, broadcast_two_clients "r" "a" "b" "ma" "mb" "test" (by decide)⟩

/-- C5 counterexample: a client that already carries a terminal (writer)
error subscribes, and the subscription's token is then cancelled with
cause `canceled`.  The session terminates, but `Err()` keeps reporting
the earlier writer error, not the token's cancellation cause — the claim
as stated fails for clients with a previously recorded terminal error. -/
theorem cancel_keeps_prior_error :
    (cancelSubAt (subscribe failedClient) 0 ClientErr.canceled).subs = [⟨[], true⟩] ∧
    clientErr (cancelSubAt (subscribe failedClient) 0 ClientErr.canceled) ≠
      some ClientErr.canceled := by
  decide

/-- C5 (amended): after a subscription session's cancellation token is
cancelled, the session is closed (its output sequence terminates), and
`Err()` reports the token's cancellation cause unless a terminal error
was already recorded, in which case the earlier error is preserved. -/
theorem cancel_closes_and_records_cause (c : ClientState) (i : Nat) (cause : ClientErr)
    (h : i < c.subs.length) :
    ((cancelSubAt c i cause).subs.getD i ⟨[], false⟩).closed = true ∧
    clientErr (cancelSubAt c i cause) = some (c.terminalErr.getD cause) := by
  constructor
  · show ((c.subs.set i _).getD i _).closed = true
    rw [list_getD_set_eq _ _ _ _ h]
  · rfl

/-- C5 (amended) witness: a fresh client with one subscription. -/
theorem cancel_closes_and_records_cause_witness :
    0 < (subscribe (newClient "y")).subs.length ∧
    (((cancelSubAt (subscribe (newClient "y")) 0 ClientErr.canceled).subs.getD 0
        ⟨[], false⟩).closed = true ∧
     clientErr (cancelSubAt (subscribe (newClient "y")) 0 ClientErr.canceled) =
       some ((subscribe (newClient "y")).terminalErr.getD ClientErr.canceled)) :=
  ⟨by decide, cancel_closes_and_records_cause (subscribe (newClient "y")) 0
    ClientErr.canceled (by decide)⟩

/- ===================== Theorems: command dispatcher ===================== -/

/-- Helper: evaluation of `cmdMid` on `["nope"]` — the leftover argument
names no subcommand of `cmdMid`. -/
theorem exec_cmdMid_nope :
    exec cmdMid ["nope"] = (Except.error (ExecErr.commandNotFound "nope"), []) := by
  have hf : findSub [cmdLeaf] "nope" = none := rfl
  have hs : stripDashDash ["nope"] = ["nope"] := rfl
  simp only [exec, cmdMid, okParse, applyProc, runHandler, hs, hf]

/-- Helper: evaluation of `cmdRoot` on `["mid", "nope"]` — it dispatches
to `cmdMid`, whose own `Exec` fails with the `ErrCommandNotFound`
annotation for `"nope"`, and that error is returned (traced) by the
parent. -/
theorem exec_cmdRoot_midnope :
    exec cmdRoot ["mid", "nope"] =
      (Except.error (ExecErr.commandNotFound "nope"), [ExecEvent.dispatched "root" "mid"]) := by
  have hf : findSub [cmdMid] "mid" = some ⟨cmdMid, by simp⟩ := rfl
  have hs : stripDashDash ["mid", "nope"] = ["mid", "nope"] := rfl
  simp only [exec, cmdRoot, okParse, applyProc, runHandler, hs, hf, exec_cmdMid_nope]
  rfl

/-- C10 counterexample: for the nested tree `cmdRoot` → `cmdMid` →
`cmdLeaf` and arguments `["mid", "nope"]`, `Exec` returns an error
wrapping `ErrCommandNotFound` (raised inside the dispatched subcommand
`cmdMid`), yet at the top level the first leftover argument `"mid"` does
match a subcommand name — so the claim's "exactly when" equivalence fails
at this input. -/
theorem commandNotFound_claim_counterexample :
    ¬ (wrapsCommandNotFound (exec cmdRoot ["mid", "nope"]).1 = true ↔
        claimNotFoundCond cmdRoot ["mid", "nope"] = true) := by
  rw [exec_cmdRoot_midnope]
  intro hiff
  exact absurd (hiff.mp rfl) (by decide)

/-- C9: `Exec` short-circuits in a fixed order: a flag-parse failure
returns the annotated parse error with the handler never invoked and no
subcommand dispatched; a handler failure returns that (traced) error with
no subcommand dispatched; and any subcommand dispatch implies the parse
step and the handler (when present) succeeded. -/
theorem exec_error_short_circuit (name : String)
    (preP postP : Option (List String → List String))
    (parseF : List String → Except String (List String))
    (handler : Option (List String → Except String Unit))
    (subs : List Command) (args : List String) :
    (∀ e, parseF (applyProc preP args) = Except.error e →
      exec (Command.mk name preP postP parseF handler subs) args =
        (Except.error (ExecErr.parseError name e), [])) ∧
    (∀ parsed h e, parseF (applyProc preP args) = Except.ok parsed →
      handler = some h → h parsed = Except.error e →
      exec (Command.mk name preP postP parseF handler subs) args =
        (Except.error (ExecErr.handlerError e),
         [ExecEvent.handlerCalled name parsed])) ∧
    (∀ p c,
      ExecEvent.dispatched p c ∈ (exec (Command.mk name preP postP parseF handler subs) args).2 →
      ∃ parsed, parseF (applyProc preP args) = Except.ok parsed ∧ handlerOk handler parsed) := by
  refine ⟨?_, ?_, ?_⟩
  · intro e he
    simp [exec, he]
  · intro parsed h e hp hh herr
    subst hh
    simp [exec, hp, runHandler, herr]
  · intro p c hmem
    cases hp : parseF (applyProc preP args) with
    | error e => simp [exec, hp] at hmem
    | ok parsed =>
      refine ⟨parsed, rfl, ?_⟩
      intro h hh
      subst hh
      cases hres : h parsed with
      | error e => simp [exec, hp, runHandler, hres] at hmem
      | ok u => cases u; rfl

/-- C10 (amended): `Exec` returns an error wrapping `ErrCommandNotFound`
exactly when flag parsing and the handler step succeed and, after
post-processing and stripping one leading `"--"`, the leftover list is
non-empty, the command has at least one subcommand, and either the first
leftover argument matches no subcommand name, or it matches one whose own
`Exec` (on the remaining arguments) returns an error wrapping
`ErrCommandNotFound`.  When the command has no subcommands and parsing
and the handler step succeed, leftover arguments are ignored and `Exec`
returns nil. -/
theorem exec_notFound_characterization (name : String)
    (preP postP : Option (List String → List String))
    (parseF : List String → Except String (List String))
    (handler : Option (List String → Except String Unit))
    (subs : List Command) (args : List String) :
    (wrapsCommandNotFound (exec (Command.mk name preP postP parseF handler subs) args).1 = true ↔
      ∃ parsed, parseF (applyProc preP args) = Except.ok parsed ∧
        (runHandler name handler parsed).1 = none ∧
        ∃ n rest, stripDashDash (applyProc postP parsed) = n :: rest ∧ subs ≠ [] ∧
          (findSub subs n = none ∨
            ∃ sub, findSub subs n = some sub ∧
              wrapsCommandNotFound (exec sub.val rest).1 = true)) ∧
    (subs = [] → ∀ parsed, parseF (applyProc preP args) = Except.ok parsed →
      (runHandler name handler parsed).1 = none →
      (exec (Command.mk name preP postP parseF handler subs) args).1 = Except.ok ()) := by
  constructor
  · cases hp : parseF (applyProc preP args) with
    | error e => simp [exec, hp, wrapsCommandNotFound]
    | ok parsed =>
      cases hrh : runHandler name handler parsed with
      | mk o evts =>
        cases o with
        | some e => simp [exec, hp, hrh, wrapsCommandNotFound]
        | none =>
          cases hs : stripDashDash (applyProc postP parsed) with
          | nil => simp [exec, hp, hrh, hs, wrapsCommandNotFound]
          | cons n rest =>
            cases subs with
            | nil => simp [exec, hp, hrh, hs, wrapsCommandNotFound]
            | cons s ss =>
              cases hf : findSub (s :: ss) n with
              | none =>
                simp [exec, hp, hrh, hs, hf, wrapsCommandNotFound]
                exact ⟨n, rest, ⟨rfl, rfl⟩, Or.inl hf⟩
              | some sub =>
                simp [exec, hp, hrh, hs, hf, wrapsCommandNotFound]
                constructor
                · intro hw
                  obtain ⟨v, hv⟩ := sub
                  exact ⟨n, rest, ⟨rfl, rfl⟩, Or.inr ⟨v, ⟨List.mem_cons.mp hv, hf⟩, hw⟩⟩
                · rintro ⟨n1, rest1, ⟨hn, hr2⟩, hnone | ⟨a, ⟨hx, hfa⟩, hw⟩⟩
                  · subst hn
                    rw [hf] at hnone
                    cases hnone
                  · subst hn
                    subst hr2
                    rw [hf] at hfa
                    injection hfa with h2
                    subst h2
                    exact hw
  · intro hsubs parsed hp hr
    subst hsubs
    cases hrh : runHandler name handler parsed with
    | mk o evts =>
      rw [hrh] at hr
      simp only at hr
      subst hr
      cases hs : stripDashDash (applyProc postP parsed) with
      | nil => simp [exec, hp, hrh, hs]
      | cons n rest => simp [exec, hp, hrh, hs]

/-- C9 witness: the three short-circuit cases at concrete commands — a
failing parse, a failing handler, and the dispatch in `cmdRoot`. -/
theorem exec_error_short_circuit_witness :
    (badParse (applyProc none ([] : List String)) = Except.error "bad" ∧
     exec (Command.mk "bp" none none badParse none []) [] =
       (Except.error (ExecErr.parseError "bp" "bad"), [])) ∧
    (okParse (applyProc none ["x"]) = Except.ok ["x"] ∧
     failHandler ["x"] = Except.error "hfail" ∧
     exec (Command.mk "bh" none none okParse (some failHandler) []) ["x"] =
       (Except.error (ExecErr.handlerError "hfail"),
        [ExecEvent.handlerCalled "bh" ["x"]])) ∧
    (ExecEvent.dispatched "root" "mid" ∈
       (exec (Command.mk "root" none none okParse none [cmdMid]) ["mid", "nope"]).2 ∧
     ∃ parsed, okParse (applyProc none ["mid", "nope"]) = Except.ok parsed ∧
       handlerOk none parsed) := by
  have hmem : ExecEvent.dispatched "root" "mid" ∈
      (exec (Command.mk "root" none none okParse none [cmdMid]) ["mid", "nope"]).2 := by
    rw [show Command.mk "root" none none okParse none [cmdMid] = cmdRoot from rfl,
      exec_cmdRoot_midnope]
    simp
  refine ⟨⟨rfl, (exec_error_short_circuit "bp" none none badParse none [] []).1 "bad" rfl⟩,
    ⟨rfl, rfl,
      (exec_error_short_circuit "bh" none none okParse (some failHandler) [] ["x"]).2.1
        ["x"] failHandler "hfail" rfl rfl rfl⟩,
    hmem,
    (exec_error_short_circuit "root" none none okParse none [cmdMid] ["mid", "nope"]).2.2
      "root" "mid" hmem⟩

/-- C10 (amended) witness: a command with no subcommands ignores leftover
arguments and returns nil. -/
theorem exec_notFound_characterization_witness :
    ([] : List Command) = [] ∧
    okParse (applyProc none ["extra"]) = Except.ok ["extra"] ∧
    (runHandler "leaf2" none ["extra"]).1 = none ∧
    (exec (Command.mk "leaf2" none none okParse none []) ["extra"]).1 = Except.ok () :=
  ⟨rfl, rfl, rfl,
    (exec_notFound_characterization "leaf2" none none okParse none [] ["extra"]).2
      rfl ["extra"] rfl rfl⟩
